/-
Verification of the raspiot altimeter agent core against its
natural-language specification.

Shallow embedding of:
  * src/altimeter/bin/mpl3115.py   (register decoder / device driver)
  * src/altimeter/bin/altimeterAgent.py (sample pipeline, health monitor,
    scheduler loop)

Conventions of the embedding:
  * Python floats are modelled as rationals (ℚ).  Every decoded quantity in
    the driver is an integer of magnitude < 2^20 scaled by an exact binary
    fraction (0.0625 = 1/16, 0.25 = 1/4), so the double arithmetic of the
    source is exact and the rational model is faithful.
  * Python functions that may raise are modelled with Except; a Python
    function that falls off its end (returning None) is modelled as
    returning `Except.ok Option.none`.
  * Wall-clock time is an explicit rational parameter; the status-register
    byte stream seen by the polling loop is a function from the read index
    to the byte read.
-/

import Mathlib

namespace Raspiot

/-! ### Register decoder: mpl3115.py -/

/-- A 5-byte raw frame as read from the OUT_P register block
(`bus.read_i2c_block_data(addr, _OUT_P_MSB_REG, 5)`). -/
structure RawFrame where
  byte0 : ℕ
  byte1 : ℕ
  byte2 : ℕ
  byte3 : ℕ
  byte4 : ℕ
deriving Repr, DecidableEq

/-- mpl3115.getAltitude, decoding part (mpl3115.py lines 203-209):
`binary_val = ((data[0] << 16 | data[1] << 8 | data[2]) >> 4)`,
`if binary_val > 0x7FFFF: binary_val -= 0xFFFFF`, then `binary_val * 0.0625`
meters. -/
def getAltitude (data : RawFrame) : ℚ :=
  let binary_val : ℤ :=
    ((data.byte0 <<< 16 ||| data.byte1 <<< 8 ||| data.byte2) >>> 4 : ℕ)
  let binary_val := if binary_val > 0x7FFFF then binary_val - 0xFFFFF else binary_val
  (binary_val : ℚ) * 0.0625

/-- mpl3115.getTemperature, decoding part (mpl3115.py lines 305-310):
`binary_val = ((data[3] << 8 | data[4]) >> 4)`,
`if binary_val > 0x7FF: binary_val -= 0xFFF`, then `binary_val * 0.0625`
degrees Celsius. -/
def getTemperatureC (data : RawFrame) : ℚ :=
  let binary_val : ℤ := ((data.byte3 <<< 8 ||| data.byte4) >>> 4 : ℕ)
  let binary_val := if binary_val > 0x7FF then binary_val - 0xFFF else binary_val
  (binary_val : ℚ) * 0.0625

/-- The altitude decode as the specification words it (claim C1): the 20-bit
field with values above 0x7FFFF interpreted as two's complement, i.e.
`value - 2^20`, scaled by 0.0625.  Kept separate from `getAltitude` (which
embeds the source) so the two can be compared. -/
def specAltitudeDecode (data : RawFrame) : ℚ :=
  let binary_val : ℤ :=
    ((data.byte0 <<< 16 ||| data.byte1 <<< 8 ||| data.byte2) >>> 4 : ℕ)
  let binary_val := if binary_val > 0x7FFFF then binary_val - 0x100000 else binary_val
  (binary_val : ℚ) * 0.0625

/-- The temperature decode as the specification words it (claim C1): the
12-bit field with values above 0x7FF interpreted as two's complement, i.e.
`value - 2^12`, scaled by 0.0625. -/
def specTemperatureDecode (data : RawFrame) : ℚ :=
  let binary_val : ℤ := ((data.byte3 <<< 8 ||| data.byte4) >>> 4 : ℕ)
  let binary_val := if binary_val > 0x7FF then binary_val - 0x1000 else binary_val
  (binary_val : ℚ) * 0.0625

/-- mpl3115.getPressure, decoding part (mpl3115.py line 253-256): the
unsigned Q18.2 field times 0.25 Pascals. -/
def getPressurePa (data : RawFrame) : ℚ :=
  let binary_val : ℕ := (data.byte0 <<< 16 ||| data.byte1 <<< 8 ||| data.byte2) >>> 4
  (binary_val : ℚ) * 0.25

/-- mpl3115.getPressure, unit-mode dispatch (mpl3115.py lines 258-263),
as a function of the already-decoded pressure in Pascals.  Mode 'B' divides
by 3386.389 (inches Hg), mode 'P' by 1000.0 (kilopascals); any other mode
prints a diagnostic and falls off the end of the function, returning None —
modelled as `.ok none`.  No exception is raised on that path. -/
def getPressure (pressure : ℚ) (mode : Char) : Except String (Option ℚ) :=
  if mode = 'B' then .ok (some (pressure / (3386389/1000)))
  else if mode = 'P' then .ok (some (pressure / 1000))
  else .ok none

/-- mpl3115.getTemperature, unit-mode dispatch (mpl3115.py lines 312-319),
as a function of the already-decoded Celsius temperature.  Mode 'F' converts
`tempCelsius * 1.8 + 32.0`; mode 'C' returns Celsius; any other mode prints
a diagnostic and returns None — modelled as `.ok none`. -/
def getTemperature (tempCelsius : ℚ) (mode : Char) : Except String (Option ℚ) :=
  if mode = 'F' then .ok (some (tempCelsius * (9/5) + 32))
  else if mode = 'C' then .ok (some tempCelsius)
  else .ok none

/-- Python 3 `round`: round half to even, as used in
`int(round(offset * scale / 2.0))`. -/
def pyRound (x : ℚ) : ℤ :=
  let f := ⌊x⌋
  let frac := x - f
  if frac < 1/2 then f
  else if 1/2 < frac then f + 1
  else if f % 2 = 0 then f else f + 1

/-- mpl3115.setPressureOffset (mpl3115.py lines 331-353).  Mode 'B' encodes
`int(round(offset * 3386.389 / 2.0))`, mode 'P' encodes
`int(round(offset * 1000.0 / 2.0))`; any other mode prints a diagnostic and
leaves `pascalsDiv2` unbound, so the subsequent `data = [...]` line raises
UnboundLocalError — modelled as `.error`.  On success the 16-bit value is
split as `[(p & 0xFF00) >> 8, p & 0xFF]` for the BAR_IN register write. -/
def setPressureOffset (offset : ℚ) (mode : Char) : Except String (List ℕ) :=
  let pascalsDiv2? : Option ℤ :=
    if mode = 'B' then some (pyRound (offset * (3386389/1000) / 2))
    else if mode = 'P' then some (pyRound (offset * 1000 / 2))
    else none
  match pascalsDiv2? with
  | none => .error "UnboundLocalError: pascalsDiv2"
  | some pascalsDiv2 =>
      .ok [(pascalsDiv2.toNat &&& 0xFF00) >>> 8, pascalsDiv2.toNat &&& 0xFF]

/-- Decoding the 2-byte BAR_IN calibration register back to Pascals:
the register LSB equals 2.0 Pascals (mpl3115.py comments, lines 332-340). -/
def decodeBarIn (msb lsb : ℕ) : ℚ := 2 * ((msb : ℚ) * 256 + lsb)

/-! ### Device driver polling: mpl3115.pollForData -/

/-- Sub-interval between status-register polls, seconds
(`time.sleep(0.1)` in mpl3115.py line 157). -/
def pollSubInterval : ℚ := 0.1

/-- Timeout budget for a sensor read, seconds
(`_SENSOR_READ_TIMEOUT = 2.0`, mpl3115.py line 55). -/
def sensorReadTimeout : ℚ := 2.0

/-- One poll iteration after another of mpl3115.pollForData (mpl3115.py
lines 144-158), with the wall clock made explicit: the i-th status-register
read happens at elapsed time `i * 0.1` seconds (reads modelled as
instantaneous, separated by the 0.1 s sleeps).  The loop guard
`time.time() - init_time < _SENSOR_READ_TIMEOUT` is checked before each
read; a read whose byte has bit 3 set (`data & 0b00001000`) returns
normally, otherwise the loop sleeps and retries; guard failure raises the
timeout exception, modelled as `none`.  Returns the index of the first
successful read. -/
def pollAux (reads : ℕ → ℕ) (i : ℕ) : Option ℕ :=
  if h : (i : ℚ) * pollSubInterval < sensorReadTimeout then
    if reads i &&& 0b00001000 ≠ 0 then some i
    else pollAux reads (i + 1)
  else none
termination_by 20 - i
decreasing_by
  have hi : (i : ℚ) < 20 := by
    have := h
    rw [pollSubInterval, sensorReadTimeout] at this
    linarith
  have : i < 20 := by exact_mod_cast hi
  omega

/-- mpl3115.pollForData: poll from elapsed time 0. -/
def pollForData (reads : ℕ → ℕ) : Option ℕ := pollAux reads 0

/-! ### Agent constants: altimeterAgent.py -/

/-- `_SENSOR_POLLING_INTERVAL = 5` seconds (altimeterAgent.py line 69);
`sensorPollingInterval` keeps this default. -/
def sensorPollingInterval : ℚ := 5

/-- `_DATABASE_UPDATE_INTERVAL = 30` seconds (line 71). -/
def databaseUpdateInterval : ℚ := 30

/-- `_CHART_UPDATE_INTERVAL = 300` seconds (line 76). -/
def chartUpdateInterval : ℚ := 300

/-- `_MAX_FAILED_DATA_REQUESTS = 3` (line 73). -/
def maxFailedDataRequests : ℕ := 3

/-- `_PASCAL_CONVERSION_FACTOR = 0.29530099194` inches Hg per Pascal
(line 89). -/
def pascalConversionFactor : ℚ := 0.29530099194

/-- `_MAX_ALLOWED_PRESSURE_SPIKE = 0.34` (line 91). -/
def maxAllowedPressureSpike : ℚ := 0.34

/-! ### Health monitor: setStatus / setStatusToOffline -/

/-- The health-related mutable state of the agent process:
`failedUpdateCount` (line 102, initial 0), `sensorOnline` (line 104,
initial False), and whether the published output data file
`_OUTPUT_DATA_FILE` currently exists (written by `writeOutputDataFile`,
removed by `setStatusToOffline`). -/
structure Health where
  failedUpdateCount : ℕ
  sensorOnline : Bool
  outputFilePresent : Bool
deriving Repr, DecidableEq

/-- altimeterAgent.setStatusToOffline (lines 146-165): remove the output
data file and set `sensorOnline = False`. -/
def setStatusToOffline (h : Health) : Health :=
  { h with outputFilePresent := false, sensorOnline := false }

/-- altimeterAgent.setStatus (lines 335-365).  On success: reset
`failedUpdateCount` to 0 and set `sensorOnline = True` (logging the
transition when it was previously offline).  On failure: increment
`failedUpdateCount`.  Afterwards, if `failedUpdateCount` equals
`_MAX_FAILED_DATA_REQUESTS`, call `setStatusToOffline`. -/
def setStatus (updateSuccess : Bool) (h : Health) : Health :=
  let h :=
    if updateSuccess then
      { h with failedUpdateCount := 0, sensorOnline := true }
    else
      { h with failedUpdateCount := h.failedUpdateCount + 1 }
  if h.failedUpdateCount = maxFailedDataRequests then setStatusToOffline h
  else h

/-- The module-level initial values of the health globals
(altimeterAgent.py lines 102-104): `failedUpdateCount = 0`,
`sensorOnline = False`.  The output data file may or may not exist when the
process starts, so it is a parameter. -/
def initialHealth (fp : Bool) : Health :=
  { failedUpdateCount := 0, sensorOnline := false, outputFilePresent := fp }

/-- Health states reachable from process startup under `setStatus` steps. -/
inductive HealthReachable : Health → Prop
  | init (fp : Bool) : HealthReachable (initialHealth fp)
  | step (b : Bool) (h : Health) :
      HealthReachable h → HealthReachable (setStatus b h)

/-! ### Sample pipeline: getSensorData / convertData -/

/-- The sensor-data dictionary `dData` as far as the numeric pipeline is
concerned.  `altitude`, `pressure`, `tempC` are the raw values stored by
`getSensorData`; the `Option` fields record the values written back by
`convertData` — `none` means `convertData` had not (yet) stored that key.
(The source stores them as formatted strings; the formatting is dropped,
the stored value kept.) -/
structure DData where
  altitude : ℚ
  pressure : ℚ
  tempC : ℚ
  altitudeOut : Option ℚ := none
  pressureOut : Option ℚ := none
  barOut : Option ℚ := none
  tempFOut : Option ℚ := none
  tempCOut : Option ℚ := none
deriving Repr, DecidableEq

/-- One successful sensor read: the three decoded values that
altimeterAgent.getSensorData (lines 210-244) stores into `dData`
(`tempC`, `altitude`, `pressure`).  A raising read (e.g. smbus timeout)
is modelled as `none` at the call site. -/
structure SensorReading where
  altitude : ℚ
  pressure : ℚ
  tempC : ℚ
deriving Repr, DecidableEq

/-- altimeterAgent.getSensorData (lines 210-244): on a successful read the
decoded values are stored in the dictionary and True is returned; if any
sensor call raises, False is returned (status set to offline in the dict,
no numeric fields guaranteed).  Modelled as `Option DData`. -/
def getSensorData (reading : Option SensorReading) : Option DData :=
  match reading with
  | none => none
  | some r => some { altitude := r.altitude, pressure := r.pressure, tempC := r.tempC }

/-- altimeterAgent.convertData (lines 246-291), with the module global
`currentPressure` passed and returned explicitly.  Returns
(result, new currentPressure, new dData).  Control flow of the source:

  1. altitude bounds check `altitude < -1000.0 or altitude > 20000.0`
     raises before anything is stored or updated;
  2. `pressureBar` is computed, `pDelta = abs(pressure - currentPressure)`,
     and `currentPressure = pressure` is assigned BEFORE the spike check
     `pDelta > _MAX_ALLOWED_PRESSURE_SPIKE` raises;
  3. temperature bounds check `tempC < -40.0 or tempC > 85.0` raises after
     pressure/bar were stored but before tempF/tempC are stored.

A raise is caught by the `except` block and False is returned, with all
mutations made so far kept (dictionary mutated in place, global assigned). -/
def convertData (currentPressure : ℚ) (d : DData) : Bool × ℚ × DData :=
  if d.altitude < -1000 ∨ d.altitude > 20000 then
    (false, currentPressure, d)
  else
    let d := { d with altitudeOut := some d.altitude }
    let pressureBar := d.pressure * pascalConversionFactor
    let pDelta := |d.pressure - currentPressure|
    let currentPressure := d.pressure
    if pDelta > maxAllowedPressureSpike then
      (false, currentPressure, d)
    else
      let d := { d with pressureOut := some d.pressure, barOut := some pressureBar }
      let tempF := (9/5 : ℚ) * d.tempC + 32
      if d.tempC < -40 ∨ d.tempC > 85 then
        (false, currentPressure, d)
      else
        (true, currentPressure, { d with tempFOut := some tempF, tempCOut := some d.tempC })

/-! ### Scheduler loop: altimeterAgent.loop -/

/-- The agent state that survives a loop iteration: the three last-fired
timestamps (lines 479-483, initialised to -1), the health globals and the
spike-filter reference `currentPressure` (line 106). -/
structure AgentState where
  lastCheckForUpdateTime : ℚ
  lastDayChartUpdateTime : ℚ
  lastDatabaseUpdateTime : ℚ
  health : Health
  currentPressure : ℚ
deriving Repr, DecidableEq

/-- Externally observable activity of one loop iteration. -/
structure Events where
  sampleFired : Bool
  wroteOutput : Bool
  dbAttempted : Bool
  chartSpawned : Bool
deriving Repr, DecidableEq

/-- The chart-generation block of the loop (lines 525-528): at the chart
interval, stamp the time and spawn the day-chart process. -/
def chartPhase (now : ℚ) (st : AgentState) (ev : Events) : AgentState × Events :=
  if now - st.lastDayChartUpdateTime > chartUpdateInterval then
    ({ st with lastDayChartUpdateTime := now }, { ev with chartSpawned := true })
  else (st, ev)

/-- altimeterAgent.writeOutputDataFile (lines 293-333), reduced to its
observable effect on the model state: the output data file exists
afterwards.  (Its return value is discarded by the loop, line 509.) -/
def writeOutputDataFile (st : AgentState) : AgentState :=
  { st with health := { st.health with outputFilePresent := true } }

/-- One iteration of altimeterAgent.loop (lines 486-543), with the single
scheduling time reading `now` (`currentTime = time.time()`, line 488), the
sensor outcome `reading` (`none` models a raising sensor call inside
getSensorData) and the result `dbOk` that `rrdb.updateDatabase` would
return if called.  Faithful control flow:

  * sample block runs iff `now - lastCheckForUpdateTime > sensorPollingInterval`
    and stamps `lastCheckForUpdateTime = now`;
  * `result = getSensorData(...)`; if truthy, `result = convertData(...)`
    (which updates `currentPressure`); if still truthy, the output file is
    written (its success ignored);
  * if `result and now - lastDatabaseUpdateTime > _DATABASE_UPDATE_INTERVAL`,
    stamp `lastDatabaseUpdateTime = now` and REASSIGN
    `result = rrdb.updateDatabase(...)`;
  * `setStatus(result)`;
  * independently, the chart block fires iff
    `now - lastDayChartUpdateTime > _CHART_UPDATE_INTERVAL`. -/
def loopIteration (st : AgentState) (now : ℚ) (reading : Option SensorReading)
    (dbOk : Bool) : AgentState × Events :=
  if now - st.lastCheckForUpdateTime > sensorPollingInterval then
    let st := { st with lastCheckForUpdateTime := now }
    match getSensorData reading with
    | none =>
        let st := { st with health := setStatus false st.health }
        chartPhase now st
          { sampleFired := true, wroteOutput := false, dbAttempted := false,
            chartSpawned := false }
    | some d =>
        let conv := convertData st.currentPressure d
        let result := conv.1
        let st := { st with currentPressure := conv.2.1 }
        let st := if result then writeOutputDataFile st else st
        if result ∧ now - st.lastDatabaseUpdateTime > databaseUpdateInterval then
          let st := { st with lastDatabaseUpdateTime := now }
          let st := { st with health := setStatus dbOk st.health }
          chartPhase now st
            { sampleFired := true, wroteOutput := result, dbAttempted := true,
              chartSpawned := false }
        else
          let st := { st with health := setStatus result st.health }
          chartPhase now st
            { sampleFired := true, wroteOutput := result, dbAttempted := false,
              chartSpawned := false }
  else
    chartPhase now st
      { sampleFired := false, wroteOutput := false, dbAttempted := false,
        chartSpawned := false }

/-! ### Concrete inputs used by witnesses and counterexamples -/

/-- A benign sensor reading: altitude 100 m, pressure 101 kPa, 20 °C. -/
def sampleReading : SensorReading := ⟨100, 101, 20⟩

/-- Agent state two failures deep, online, sample and database both due at
time 31, spike reference equal to the upcoming pressure reading. -/
def c2State : AgentState := ⟨0, 31, 0, ⟨2, true, true⟩, 101⟩

/-- Agent state with no failures, online, sample and database both due at
time 31. -/
def c2StateW : AgentState := ⟨0, 31, 0, ⟨0, true, true⟩, 101⟩

/-- Agent state whose database flush is due at time 31
(31 - 0 > 30) while the chart is not. -/
def c9State : AgentState := ⟨0, 31, 0, ⟨0, true, true⟩, 0⟩

/-- A dictionary whose pressure jumps by 1 kPa from a reference of 0:
a spike (1 > 0.34). -/
def spikeD : DData := ⟨0, 1, 0, none, none, none, none, none⟩

/-- A follow-up dictionary 0.2 kPa away from spikeD's pressure: below the
spike threshold. -/
def spikeD2 : DData := ⟨0, 6/5, 0, none, none, none, none, none⟩

/-- A dictionary with an out-of-range altitude (25000 m > 20000 m). -/
def c10D : DData := ⟨25000, 0, 0, none, none, none, none, none⟩

/-! ## Theorems -/

/-! ### Helper lemmas -/

/-- The poll-loop guard `elapsed < 2.0` at the i-th read (elapsed `i * 0.1`)
holds exactly for the first 20 reads. -/
theorem pollGuard_iff (i : ℕ) :
    ((i : ℚ) * pollSubInterval < sensorReadTimeout) ↔ i < 20 := by
  rw [pollSubInterval, sensorReadTimeout]
  constructor
  · intro h
    have hi : (i : ℚ) < 20 := by linarith
    exact_mod_cast hi
  · intro h
    have hi : (i : ℚ) < 20 := by exact_mod_cast h
    linarith

/-- If the polling loop started at read index i returns read index k, then
k is within the 20-read budget, the data-ready bit was set at read k, and
clear at every earlier read the loop made. -/
theorem pollAux_some_spec (reads : ℕ → ℕ) (k : ℕ) :
    ∀ i, pollAux reads i = some k →
      i ≤ k ∧ k < 20 ∧ reads k &&& 8 ≠ 0 ∧
        ∀ j, i ≤ j → j < k → reads j &&& 8 = 0 := by
  intro i
  induction i using pollAux.induct reads with
  | case1 i hg hbit =>
    intro heq
    rw [pollAux, dif_pos hg, if_pos hbit] at heq
    obtain rfl : i = k := by simpa using heq
    refine ⟨le_refl _, (pollGuard_iff i).mp hg, hbit, ?_⟩
    intro j hij hji
    omega
  | case2 i hg hbit ih =>
    intro heq
    rw [pollAux, dif_pos hg, if_neg hbit] at heq
    obtain ⟨h1, h2, h3, h4⟩ := ih heq
    refine ⟨by omega, h2, h3, ?_⟩
    intro j hij hji
    rcases Nat.eq_or_lt_of_le hij with rfl | hlt
    · simpa using hbit
    · exact h4 j hlt hji
  | case3 i hg =>
    intro heq
    rw [pollAux, dif_neg hg] at heq
    exact absurd heq (by simp)

/-- The polling loop started at read index i times out exactly when the
data-ready bit is clear at every remaining read within the 20-read
(2-second) budget. -/
theorem pollAux_none_spec (reads : ℕ → ℕ) :
    ∀ i, pollAux reads i = none ↔
      ∀ j, i ≤ j → j < 20 → reads j &&& 8 = 0 := by
  intro i
  induction i using pollAux.induct reads with
  | case1 i hg hbit =>
    rw [pollAux, dif_pos hg, if_pos hbit]
    constructor
    · intro h
      exact absurd h (by simp)
    · intro h
      exact absurd (h i (le_refl i) ((pollGuard_iff i).mp hg)) hbit
  | case2 i hg hbit ih =>
    rw [pollAux, dif_pos hg, if_neg hbit]
    rw [ih]
    constructor
    · intro h j hij hj20
      rcases Nat.eq_or_lt_of_le hij with rfl | hlt
      · simpa using hbit
      · exact h j hlt hj20
    · intro h j hij hj20
      exact h j (by omega) hj20
  | case3 i hg =>
    rw [pollAux, dif_neg hg]
    simp only [true_iff]
    intro j hij hj20
    have hi20 : ¬ i < 20 := fun hc => hg ((pollGuard_iff i).mpr hc)
    omega

/-- Masking with 0xFF00 then shifting right by 8 equals shifting right by 8
then masking with 0xFF. -/
theorem mask_hi_shift (n : ℕ) : (n &&& 0xFF00) >>> 8 = (n >>> 8) &&& 0xFF := by
  apply Nat.eq_of_testBit_eq
  intro i
  simp only [Nat.testBit_shiftRight, Nat.testBit_and]
  have h1 : (0xFF00 : ℕ) = 0xFF <<< 8 := by decide
  rw [h1, Nat.testBit_shiftLeft]
  simp [Nat.add_sub_cancel_left, Nat.add_comm]

/-- Recombining the MSB/LSB split of a 16-bit value recovers it. -/
theorem split16 (n : ℕ) (hn : n < 65536) :
    ((n &&& 0xFF00) >>> 8) * 256 + (n &&& 0xFF) = n := by
  rw [mask_hi_shift]
  rw [Nat.and_pow_two_sub_one_eq_mod _ 8, Nat.and_pow_two_sub_one_eq_mod _ 8,
      Nat.shiftRight_eq_div_pow]
  norm_num
  omega

/-- Python's round (half to even) lands within half a unit of its
argument. -/
theorem pyRound_close (x : ℚ) : |(pyRound x : ℚ) - x| ≤ 1/2 := by
  have h0 : (⌊x⌋ : ℚ) ≤ x := Int.floor_le x
  have h1 : x < ⌊x⌋ + 1 := Int.lt_floor_add_one x
  simp only [pyRound]
  split_ifs with hlt hgt heven
  · rw [abs_sub_comm, abs_of_nonneg (by linarith)]
    linarith
  · rw [abs_of_nonneg (by push_cast; linarith)]
    push_cast
    linarith
  · rw [abs_sub_comm, abs_of_nonneg (by linarith)]
    linarith
  · rw [abs_of_nonneg (by push_cast; linarith)]
    push_cast
    linarith

/-! ### Claim C1 -/

/-- Claim C1 (code bug).  The claim states that decoding performs
two's-complement sign extension, i.e. subtracts 2^20 (altitude) resp. 2^12
(temperature) above the threshold.  The source instead subtracts
0xFFFFF = 2^20 - 1 resp. 0xFFF = 2^12 - 1 (mpl3115.py lines 205 and 307),
even though its own comments call the fields two's-complement — so every
negative reading is too large by exactly one LSB (0.0625).  At the frame
whose 20-bit altitude field is 0xFFFFF (two's complement -1) the source
decode returns 0 instead of -0.0625 m, and at the frame whose 12-bit
temperature field is 0xFFF it returns 0 instead of -0.0625 °C. -/
theorem C1_sign_extension_bug :
    getAltitude ⟨0xFF, 0xFF, 0xF0, 0x00, 0x00⟩ = 0 ∧
    specAltitudeDecode ⟨0xFF, 0xFF, 0xF0, 0x00, 0x00⟩ = -0.0625 ∧
    getTemperatureC ⟨0x00, 0x00, 0x00, 0xFF, 0xF0⟩ = 0 ∧
    specTemperatureDecode ⟨0x00, 0x00, 0x00, 0xFF, 0xF0⟩ = -0.0625 := by
  have ha : ((0xFF : ℕ) <<< 16 ||| (0xFF : ℕ) <<< 8 ||| (0xF0 : ℕ)) >>> 4 = 1048575 := by
    decide
  have ht : ((0xFF : ℕ) <<< 8 ||| (0xF0 : ℕ)) >>> 4 = 4095 := by decide
  refine ⟨?_, ?_, ?_, ?_⟩
  · simp only [getAltitude, ha]
    norm_num
  · simp only [specAltitudeDecode, ha]
    norm_num
  · simp only [getTemperatureC, ht]
    norm_num
  · simp only [specTemperatureDecode, ht]
    norm_num

/-! ### Claim C3 -/

/-- Claim C3, counterexample.  The claim says the Health Monitor starts
Online with failure count 0; in the source `sensorOnline = False` at module
level (altimeterAgent.py line 104), so the initial state is not Online,
whether or not the output file pre-exists. -/
theorem C3_counterexample :
    ¬ ((initialHealth false).sensorOnline = true ∧
        (initialHealth false).failedUpdateCount = 0) ∧
    ¬ ((initialHealth true).sensorOnline = true ∧
        (initialHealth true).failedUpdateCount = 0) := by
  decide

/-- Claim C3, amended: at process startup the consecutive-failure count is
0 and the sensor state is Offline (`sensorOnline = False`, a pessimistic
start); the first pipeline success transitions it to Online. -/
theorem C3_amended_initial_state (fp : Bool) :
    (initialHealth fp).failedUpdateCount = 0 ∧
    (initialHealth fp).sensorOnline = false ∧
    (setStatus true (initialHealth fp)).sensorOnline = true := by
  cases fp <;> decide

/-! ### Claim C10 -/

/-- Claim C10: if the altitude bounds check fails, convertData returns
failure with the spike-filter reference (`currentPressure`) unchanged and
the data record untouched — in particular no pressure, bar or tempF fields
are stored. -/
theorem C10_altitude_failure_frame (cp : ℚ) (d : DData)
    (halt : d.altitude < -1000 ∨ d.altitude > 20000) :
    convertData cp d = (false, cp, d) := by
  simp only [convertData, if_pos halt]

/-- Claim C10, witness: a 25000 m altitude reading fails the bounds check
and leaves reference and record untouched. -/
theorem C10_altitude_failure_frame_witness :
    (c10D.altitude < -1000 ∨ c10D.altitude > 20000) ∧
    convertData 0 c10D = (false, 0, c10D) :=
  ⟨by norm_num [c10D], C10_altitude_failure_frame 0 c10D (by norm_num [c10D])⟩

/-! ### Claim C5 -/

/-- Claim C5: whenever convertData gets past the altitude check, the
persisted spike-filter reference is set to the current pressure reading —
also when the reading then fails the spike check — so a spike fails
validation for its own cycle only and becomes the baseline for the next
cycle, which passes whenever its delta from the new baseline is within the
threshold (and its other checks pass). -/
theorem C5_spike_reference_update (cp : ℚ) (d : DData)
    (halt : ¬ (d.altitude < -1000 ∨ d.altitude > 20000)) :
    (convertData cp d).2.1 = d.pressure ∧
    (|d.pressure - cp| > maxAllowedPressureSpike → (convertData cp d).1 = false) ∧
    (∀ d2 : DData, ¬ (d2.altitude < -1000 ∨ d2.altitude > 20000) →
      ¬ (|d2.pressure - d.pressure| > maxAllowedPressureSpike) →
      ¬ (d2.tempC < -40 ∨ d2.tempC > 85) →
      (convertData (convertData cp d).2.1 d2).1 = true) := by
  have hcp : (convertData cp d).2.1 = d.pressure := by
    simp only [convertData, if_neg halt]
    split_ifs <;> rfl
  refine ⟨hcp, ?_, ?_⟩
  · intro hspike
    simp only [convertData, if_neg halt, if_pos hspike]
  · intro d2 h1 h2 h3
    rw [hcp]
    simp only [convertData, if_neg h1, if_neg h2, if_neg h3]

/-- Claim C5, witness: from reference 0, a 1 kPa reading is a spike
(1 > 0.34) and fails its cycle, yet becomes the reference; the next
reading at 1.2 kPa (delta 0.2) passes. -/
theorem C5_spike_reference_update_witness :
    (¬ (spikeD.altitude < -1000 ∨ spikeD.altitude > 20000)) ∧
    (convertData 0 spikeD).2.1 = spikeD.pressure ∧
    (convertData 0 spikeD).1 = false ∧
    (convertData (convertData 0 spikeD).2.1 spikeD2).1 = true :=
  ⟨by norm_num [spikeD],
   (C5_spike_reference_update 0 spikeD (by norm_num [spikeD])).1,
   (C5_spike_reference_update 0 spikeD (by norm_num [spikeD])).2.1
     (by norm_num [spikeD, maxAllowedPressureSpike]),
   (C5_spike_reference_update 0 spikeD (by norm_num [spikeD])).2.2 spikeD2
     (by norm_num [spikeD2])
     (by norm_num [spikeD, spikeD2, maxAllowedPressureSpike, abs_le])
     (by norm_num [spikeD2])⟩

/-! ### Claim C4 -/

/-- Offline invariant of the health monitor: in every reachable state with
at least `_MAX_FAILED_DATA_REQUESTS` consecutive failures the sensor is
marked offline. -/
theorem health_offline_invariant (h : Health) (hr : HealthReachable h) :
    maxFailedDataRequests ≤ h.failedUpdateCount → h.sensorOnline = false := by
  induction hr with
  | init fp =>
    intro hc
    simp [initialHealth, maxFailedDataRequests] at hc
  | step b h' hr ih =>
    intro hc
    cases b
    · by_cases h3 : h'.failedUpdateCount + 1 = maxFailedDataRequests
      · simp [setStatus, h3, setStatusToOffline]
      · have hge : maxFailedDataRequests ≤ h'.failedUpdateCount := by
          simp [setStatus, h3] at hc
          simp only [maxFailedDataRequests] at hc h3 ⊢
          omega
        simpa [setStatus, h3, setStatusToOffline] using ih hge
    · simp [setStatus, maxFailedDataRequests, setStatusToOffline] at hc

/-- Claim C4: for every reachable health state, a pipeline success resets
the failure counter to 0 and makes/keeps the state Online; a failure
increments the counter; a failure that does not bring the counter to the
threshold 3 changes neither the online flag nor the published output file;
the failure that brings the counter exactly to 3 turns the state Offline
and removes the output data file (the offline side effect); the state is
Offline whenever the counter is at least 3; and once Offline, further
failures keep it Offline (only a success flips it back). -/
theorem C4_health_transitions (h : Health) (hr : HealthReachable h) :
    ((setStatus true h).failedUpdateCount = 0 ∧
     (setStatus true h).sensorOnline = true) ∧
    ((setStatus false h).failedUpdateCount = h.failedUpdateCount + 1) ∧
    (h.failedUpdateCount + 1 ≠ maxFailedDataRequests →
      (setStatus false h).sensorOnline = h.sensorOnline ∧
      (setStatus false h).outputFilePresent = h.outputFilePresent) ∧
    (h.failedUpdateCount + 1 = maxFailedDataRequests →
      (setStatus false h).sensorOnline = false ∧
      (setStatus false h).outputFilePresent = false) ∧
    (maxFailedDataRequests ≤ h.failedUpdateCount → h.sensorOnline = false) ∧
    (h.sensorOnline = false → (setStatus false h).sensorOnline = false) := by
  refine ⟨⟨?_, ?_⟩, ?_, ?_, ?_, health_offline_invariant h hr, ?_⟩
  · simp [setStatus, maxFailedDataRequests, setStatusToOffline]
  · simp [setStatus, maxFailedDataRequests, setStatusToOffline]
  · by_cases h3 : h.failedUpdateCount + 1 = maxFailedDataRequests <;>
      simp [setStatus, h3, setStatusToOffline]
  · intro h3
    simp [setStatus, h3, setStatusToOffline]
  · intro h3
    simp [setStatus, h3, setStatusToOffline]
  · intro hoff
    by_cases h3 : h.failedUpdateCount + 1 = maxFailedDataRequests <;>
      simp [setStatus, h3, setStatusToOffline, hoff]

/-- Claim C4, witness: the conclusions at the reachable startup state
(failure count 0, offline, no output file). -/
theorem C4_health_transitions_witness :
    HealthReachable (initialHealth false) ∧
    (((setStatus true (initialHealth false)).failedUpdateCount = 0 ∧
      (setStatus true (initialHealth false)).sensorOnline = true) ∧
     ((setStatus false (initialHealth false)).failedUpdateCount =
        (initialHealth false).failedUpdateCount + 1) ∧
     ((initialHealth false).failedUpdateCount + 1 ≠ maxFailedDataRequests →
       (setStatus false (initialHealth false)).sensorOnline =
          (initialHealth false).sensorOnline ∧
       (setStatus false (initialHealth false)).outputFilePresent =
          (initialHealth false).outputFilePresent) ∧
     ((initialHealth false).failedUpdateCount + 1 = maxFailedDataRequests →
       (setStatus false (initialHealth false)).sensorOnline = false ∧
       (setStatus false (initialHealth false)).outputFilePresent = false) ∧
     (maxFailedDataRequests ≤ (initialHealth false).failedUpdateCount →
       (initialHealth false).sensorOnline = false) ∧
     ((initialHealth false).sensorOnline = false →
       (setStatus false (initialHealth false)).sensorOnline = false)) :=
  ⟨HealthReachable.init false,
   C4_health_transitions (initialHealth false) (HealthReachable.init false)⟩

/-! ### Claim C2 -/

/-- Claim C2, counterexample.  The claim says a failed database append at
the db-flush interval leaves the health state exactly as on a fully
successful cycle (counter reset to 0, sensor Online).  In the source the
loop reassigns `result = rrdb.updateDatabase(...)` (altimeterAgent.py
line 517) and then calls `setStatus(result)` (line 522), so the failed
append counts as a failed cycle: from a state with 2 consecutive failures,
a cycle whose sample is read, validated and published but whose due
database append fails drives the counter to 3 and the sensor Offline. -/
theorem C2_counterexample :
    (convertData c2State.currentPressure
        { altitude := sampleReading.altitude, pressure := sampleReading.pressure,
          tempC := sampleReading.tempC }).1 = true ∧
    ((31 : ℚ) - c2State.lastDatabaseUpdateTime > databaseUpdateInterval) ∧
    (loopIteration c2State 31 (some sampleReading) false).2.dbAttempted = true ∧
    (loopIteration c2State 31 (some sampleReading) false).1.health.failedUpdateCount
      = 3 ∧
    (loopIteration c2State 31 (some sampleReading) false).1.health.sensorOnline
      = false := by
  norm_num [loopIteration, c2State, sampleReading, getSensorData, convertData,
    writeOutputDataFile, chartPhase, setStatus, setStatusToOffline,
    sensorPollingInterval, databaseUpdateInterval, chartUpdateInterval,
    maxFailedDataRequests, maxAllowedPressureSpike]

/-- Claim C2, amended: on a cycle whose sample is read, validated and
published but whose due database append fails, the append's result is fed
to setStatus: the consecutive-failure counter is incremented (not reset),
driving the sensor Offline when it thereby reaches the threshold — a store
failure counts toward the failure streak exactly like a sampling
failure. -/
theorem C2_amended_store_failure_increments (st : AgentState) (now : ℚ)
    (r : SensorReading)
    (hdue : now - st.lastCheckForUpdateTime > sensorPollingInterval)
    (hconv : (convertData st.currentPressure
        { altitude := r.altitude, pressure := r.pressure, tempC := r.tempC }).1
      = true)
    (hdb : now - st.lastDatabaseUpdateTime > databaseUpdateInterval) :
    (loopIteration st now (some r) false).2.dbAttempted = true ∧
    (loopIteration st now (some r) false).1.health.failedUpdateCount =
        st.health.failedUpdateCount + 1 ∧
    (st.health.failedUpdateCount + 1 = maxFailedDataRequests →
      (loopIteration st now (some r) false).1.health.sensorOnline = false) ∧
    (st.health.failedUpdateCount + 1 ≠ maxFailedDataRequests →
      (loopIteration st now (some r) false).1.health.sensorOnline =
        st.health.sensorOnline) := by
  simp only [loopIteration, getSensorData, if_pos hdue, hconv, writeOutputDataFile,
    if_pos (And.intro rfl hdb)]
  refine ⟨?_, ?_, ?_, ?_⟩ <;>
    simp [chartPhase, setStatus, setStatusToOffline] <;>
    split_ifs <;>
    simp_all [setStatusToOffline]

/-- Claim C2, witness for the amended claim: from a clean online state, a
successful sample whose due database append fails leaves the failure
counter at 1 instead of 0. -/
theorem C2_amended_store_failure_increments_witness :
    ((31 : ℚ) - c2StateW.lastCheckForUpdateTime > sensorPollingInterval) ∧
    ((convertData c2StateW.currentPressure
        { altitude := sampleReading.altitude, pressure := sampleReading.pressure,
          tempC := sampleReading.tempC }).1 = true) ∧
    ((31 : ℚ) - c2StateW.lastDatabaseUpdateTime > databaseUpdateInterval) ∧
    (loopIteration c2StateW 31 (some sampleReading) false).1.health.failedUpdateCount
      = c2StateW.health.failedUpdateCount + 1 := by
  have h1 : (31 : ℚ) - c2StateW.lastCheckForUpdateTime > sensorPollingInterval := by
    norm_num [c2StateW, sensorPollingInterval]
  have h2 : (convertData c2StateW.currentPressure
      { altitude := sampleReading.altitude, pressure := sampleReading.pressure,
        tempC := sampleReading.tempC }).1 = true := by
    norm_num [c2StateW, sampleReading, convertData, maxAllowedPressureSpike]
  have h3 : (31 : ℚ) - c2StateW.lastDatabaseUpdateTime > databaseUpdateInterval := by
    norm_num [c2StateW, databaseUpdateInterval]
  exact ⟨h1, h2, h3,
    (C2_amended_store_failure_increments c2StateW 31 sampleReading h1 h2 h3).2.1⟩

/-! ### Claim C9 -/

/-- Claim C9, counterexample.  The claim says any activity due at the
iteration's single time reading fires within that same iteration.  In the
source the database-flush check is nested inside the sample block and
guarded by the sample's success (`result and ...`, altimeterAgent.py
line 513), so at time 31 with the flush due (31 - 0 > 30) but the sensor
read failing, the iteration fires the sample activity yet neither attempts
the database update nor stamps its timestamp.  (The source also reads the
wall clock a second time per iteration, line 533, but only to size the
sleep.) -/
theorem C9_counterexample :
    ((31 : ℚ) - c9State.lastDatabaseUpdateTime > databaseUpdateInterval) ∧
    (loopIteration c9State 31 none true).2.sampleFired = true ∧
    (loopIteration c9State 31 none true).2.dbAttempted = false ∧
    (loopIteration c9State 31 none true).1.lastDatabaseUpdateTime =
      c9State.lastDatabaseUpdateTime := by
  norm_num [loopIteration, c9State, getSensorData, chartPhase, setStatus,
    setStatusToOffline, sensorPollingInterval, databaseUpdateInterval,
    chartUpdateInterval, maxFailedDataRequests]

/-- Claim C9, amended: each iteration compares the single time reading
`now` against the three last-fired timestamps; the sample activity fires
exactly when due and stamps its timestamp with `now`; likewise the chart
activity, independently; the database flush however fires exactly when,
in the same iteration, the sample is due AND the sensor read and
conversion succeed AND the flush interval has elapsed — a due flush is
deferred past iterations where sampling is not due or fails — and each
activity stamps its own last-fired timestamp with `now` exactly when it
fires, so each fires at most once per its configured interval. -/
theorem C9_amended_scheduler (st : AgentState) (now : ℚ)
    (reading : Option SensorReading) (dbOk : Bool) :
    ((loopIteration st now reading dbOk).2.sampleFired = true ↔
        now - st.lastCheckForUpdateTime > sensorPollingInterval) ∧
    ((loopIteration st now reading dbOk).1.lastCheckForUpdateTime =
        if now - st.lastCheckForUpdateTime > sensorPollingInterval then now
        else st.lastCheckForUpdateTime) ∧
    ((loopIteration st now reading dbOk).2.chartSpawned = true ↔
        now - st.lastDayChartUpdateTime > chartUpdateInterval) ∧
    ((loopIteration st now reading dbOk).1.lastDayChartUpdateTime =
        if now - st.lastDayChartUpdateTime > chartUpdateInterval then now
        else st.lastDayChartUpdateTime) ∧
    ((loopIteration st now reading dbOk).2.dbAttempted = true ↔
        (now - st.lastCheckForUpdateTime > sensorPollingInterval ∧
         now - st.lastDatabaseUpdateTime > databaseUpdateInterval ∧
         ∃ r, reading = some r ∧
           (convertData st.currentPressure
             { altitude := r.altitude, pressure := r.pressure,
               tempC := r.tempC }).1 = true)) ∧
    ((loopIteration st now reading dbOk).1.lastDatabaseUpdateTime =
        if (loopIteration st now reading dbOk).2.dbAttempted = true then now
        else st.lastDatabaseUpdateTime) := by
  rcases reading with _ | r
  · by_cases hdue : now - st.lastCheckForUpdateTime > sensorPollingInterval <;>
      by_cases hchart : now - st.lastDayChartUpdateTime > chartUpdateInterval <;>
      simp [loopIteration, getSensorData, chartPhase, hdue, hchart]
  · by_cases hdue : now - st.lastCheckForUpdateTime > sensorPollingInterval <;>
      by_cases hchart : now - st.lastDayChartUpdateTime > chartUpdateInterval <;>
      by_cases hres : (convertData st.currentPressure
          { altitude := r.altitude, pressure := r.pressure,
            tempC := r.tempC }).1 = true <;>
      by_cases hdb : now - st.lastDatabaseUpdateTime > databaseUpdateInterval <;>
      simp [loopIteration, getSensorData, chartPhase, writeOutputDataFile, hdue,
        hchart, hres, hdb]

/-- Claim C9, witness: at time 31 with the sample due, the iteration fires
the sample activity and stamps its timestamp with the single reading. -/
theorem C9_amended_scheduler_witness :
    (loopIteration c9State 31 none true).2.sampleFired = true ∧
    (loopIteration c9State 31 none true).1.lastCheckForUpdateTime = 31 := by
  have h := C9_amended_scheduler c9State 31 none true
  constructor
  · exact h.1.mpr (by norm_num [c9State, sensorPollingInterval])
  · have h2 := h.2.1
    rwa [if_pos (by norm_num [c9State, sensorPollingInterval])] at h2

/-! ### Claim C6 -/

/-- Claim C6: the device driver's poll-for-ready loop reads the status
register at the fixed 0.1 s sub-interval within the 2 s budget — which
admits exactly the reads of index < 20 (first conjunct, tying the read
budget to the clock) — returns normally at the first read that observes
the data-ready bit, and times out (its only error) exactly when no read
within the budget observes the bit. -/
theorem C6_pollForData_spec (reads : ℕ → ℕ) :
    (∀ i : ℕ, ((i : ℚ) * pollSubInterval < sensorReadTimeout) ↔ i < 20) ∧
    (∀ k, pollForData reads = some k →
      k < 20 ∧ reads k &&& 8 ≠ 0 ∧ ∀ j, j < k → reads j &&& 8 = 0) ∧
    (pollForData reads = none ↔ ∀ j, j < 20 → reads j &&& 8 = 0) := by
  refine ⟨pollGuard_iff, ?_, ?_⟩
  · intro k hk
    obtain ⟨h1, h2, h3, h4⟩ := pollAux_some_spec reads k 0 hk
    exact ⟨h2, h3, fun j hj => h4 j (Nat.zero_le j) hj⟩
  · rw [pollForData, pollAux_none_spec reads 0]
    constructor
    · intro h j hj
      exact h j (Nat.zero_le j) hj
    · intro h j _ hj
      exact h j hj

/-- Claim C6, witness: a bus whose status register always reports ready is
detected at the very first read. -/
theorem C6_pollForData_spec_witness :
    pollForData (fun _ => 8) = some 0 ∧
    (0 : ℕ) < 20 ∧ (fun _ => (8 : ℕ)) 0 &&& 8 ≠ 0 := by
  have h : pollForData (fun _ => (8 : ℕ)) = some 0 := by
    rw [pollForData, pollAux,
        dif_pos (by norm_num [pollSubInterval, sensorReadTimeout]),
        if_pos (by decide)]
  exact ⟨h, ((C6_pollForData_spec (fun _ => 8)).2.1 0 h).1,
    ((C6_pollForData_spec (fun _ => 8)).2.1 0 h).2.1⟩

/-! ### Claim C8 -/

/-- Claim C8: the calibration-offset encoder computes the 16-bit integer
`round(offset * unitScale / 2.0)` — scale 3386.389 Pa/inHg in mode 'B',
1000.0 Pa/kPa in mode 'P' — and splits it into MSB and LSB bytes; for
every offset whose encoded integer is in the 16-bit range, decoding the
two bytes back at 2 Pa per LSB recovers `offset * unitScale` to within
1 Pa, i.e. within the register's LSB resolution. -/
theorem C8_offset_encode_roundtrip (offset : ℚ) (mode : Char) (scale : ℚ)
    (hmode : (mode = 'B' ∧ scale = 3386389/1000) ∨ (mode = 'P' ∧ scale = 1000))
    (p : ℤ) (hp : p = pyRound (offset * scale / 2))
    (hp0 : 0 ≤ p) (hp16 : p < 65536) :
    setPressureOffset offset mode =
      .ok [(p.toNat &&& 0xFF00) >>> 8, p.toNat &&& 0xFF] ∧
    (p.toNat &&& 0xFF00) >>> 8 < 256 ∧ p.toNat &&& 0xFF < 256 ∧
    |decodeBarIn ((p.toNat &&& 0xFF00) >>> 8) (p.toNat &&& 0xFF) -
        offset * scale| ≤ 1 := by
  have henc : setPressureOffset offset mode =
      .ok [(p.toNat &&& 0xFF00) >>> 8, p.toNat &&& 0xFF] := by
    rcases hmode with ⟨hm, hs⟩ | ⟨hm, hs⟩ <;> subst hm <;> subst hs <;>
      simp [setPressureOffset, hp]
  have hmsb : (p.toNat &&& 0xFF00) >>> 8 < 256 := by
    rw [mask_hi_shift]
    have hle := @Nat.and_le_right (p.toNat >>> 8) 0xFF
    omega
  have hlsb : p.toNat &&& 0xFF < 256 := by
    have hle := @Nat.and_le_right p.toNat 0xFF
    omega
  refine ⟨henc, hmsb, hlsb, ?_⟩
  have hsplit : ((p.toNat &&& 0xFF00) >>> 8) * 256 + (p.toNat &&& 0xFF) = p.toNat :=
    split16 p.toNat (by omega)
  have htn : ((p.toNat : ℕ) : ℚ) = (p : ℚ) := by
    exact_mod_cast congrArg (fun z : ℤ => (z : ℚ)) (Int.toNat_of_nonneg hp0)
  have hq : (((p.toNat &&& 0xFF00) >>> 8 : ℕ) : ℚ) * 256 +
      ((p.toNat &&& 0xFF : ℕ) : ℚ) = (p : ℚ) := by
    rw [← htn]
    exact_mod_cast hsplit
  rw [decodeBarIn, hq]
  have hclose := pyRound_close (offset * scale / 2)
  rw [← hp] at hclose
  have h2 : 2 * ((p : ℚ)) - offset * scale = 2 * ((p : ℚ) - offset * scale / 2) := by
    ring
  rw [h2, abs_mul, abs_two]
  linarith [hclose]

/-- Claim C8, witness: the default offset 101.325 kPa in mode 'P' encodes
to 50662 (round half to even of 50662.5), splits into bytes 197 and 230,
and decodes back to 101324 Pa — 1 Pa below the exact 101325 Pa. -/
theorem C8_offset_encode_roundtrip_witness :
    (('P' = 'B' ∧ (1000 : ℚ) = 3386389/1000) ∨
      ('P' = 'P' ∧ (1000 : ℚ) = 1000)) ∧
    ((50662 : ℤ) = pyRound ((101325/1000 : ℚ) * 1000 / 2)) ∧
    (0 ≤ (50662 : ℤ)) ∧ ((50662 : ℤ) < 65536) ∧
    (setPressureOffset (101325/1000) 'P' =
        .ok [((50662 : ℤ).toNat &&& 0xFF00) >>> 8, (50662 : ℤ).toNat &&& 0xFF] ∧
      ((50662 : ℤ).toNat &&& 0xFF00) >>> 8 < 256 ∧
      (50662 : ℤ).toNat &&& 0xFF < 256 ∧
      |decodeBarIn (((50662 : ℤ).toNat &&& 0xFF00) >>> 8)
          ((50662 : ℤ).toNat &&& 0xFF) - (101325/1000 : ℚ) * 1000| ≤ 1) := by
  have harg : ((101325/1000 : ℚ) * 1000 / 2) = 101325/2 := by norm_num
  have hfloor : ⌊(101325/2 : ℚ)⌋ = 50662 := by
    rw [Int.floor_eq_iff]
    norm_num
  have hp : (50662 : ℤ) = pyRound ((101325/1000 : ℚ) * 1000 / 2) := by
    simp only [pyRound, harg, hfloor]
    norm_num
  exact ⟨Or.inr ⟨rfl, rfl⟩, hp, by norm_num, by norm_num,
    C8_offset_encode_roundtrip (101325/1000) 'P' 1000 (Or.inr ⟨rfl, rfl⟩)
      50662 hp (by norm_num) (by norm_num)⟩

/-! ### Claim C7 -/

/-- Claim C7, counterexample.  The claim says an unrecognized unit mode
fails with an error surfaced immediately to the caller.  getPressure with
mode 'X' instead prints a diagnostic and returns normally with Python's
None (`Except.ok none` in this embedding): no error reaches the caller. -/
theorem C7_counterexample : getPressure 100 'X' = Except.ok none := rfl

/-- Claim C7, amended, per operation: with a unit mode other than the two
that operation recognizes — 'B'/'P' for getPressure and setPressureOffset,
'F'/'C' for getTemperature — getPressure and getTemperature print a
diagnostic and return None (no exception, but also never a numeric
default), while setPressureOffset raises an error (an UnboundLocalError
from the unassigned `pascalsDiv2`) before any register write. -/
theorem C7_amended_invalid_mode (p t off : ℚ) (mode : Char) :
    (mode ≠ 'B' → mode ≠ 'P' →
      getPressure p mode = .ok none ∧
      setPressureOffset off mode = .error "UnboundLocalError: pascalsDiv2") ∧
    (mode ≠ 'F' → mode ≠ 'C' →
      getTemperature t mode = .ok none) := by
  refine ⟨fun hB hP => ⟨?_, ?_⟩, fun hF hC => ?_⟩
  · simp [getPressure, hB, hP]
  · simp [setPressureOffset, hB, hP]
  · simp [getTemperature, hF, hC]

/-- Claim C7, witness: mode 'F' is unrecognized by the two pressure
operations (getPressure returns None, setPressureOffset errors) and mode
'B' is unrecognized by getTemperature (returns None), at concrete
arguments. -/
theorem C7_amended_invalid_mode_witness :
    ('F' ≠ 'B') ∧ ('F' ≠ 'P') ∧ ('B' ≠ 'F') ∧ ('B' ≠ 'C') ∧
    (getPressure 5 'F' = .ok none ∧
     setPressureOffset 7 'F' = .error "UnboundLocalError: pascalsDiv2") ∧
    getTemperature 6 'B' = .ok none :=
  ⟨by decide, by decide, by decide, by decide,
   (C7_amended_invalid_mode 5 6 7 'F').1 (by decide) (by decide),
   (C7_amended_invalid_mode 5 6 7 'B').2 (by decide) (by decide)⟩

end Raspiot
